import Mathlib

/-!
Verification of the helpdesk ticket tracker (`tickets` Django app).

The data model (`tickets/models.py`) and the view-level operations
(`tickets/views.py`) are shallowly embedded:

* Timestamps are integers (seconds).  `timedelta(hours=4)` is `4 * 3600`
  and `timedelta(minutes=2)` is `120`.
* Django model instances become Lean structures; `null` becomes `none`.
* `status` and `priority` are `String`s, exactly as Django `CharField`s:
  the `choices` lists are not enforced on direct attribute assignment
  followed by `save()`, and the views assign raw POST values.
* An HTTP POST parameter that may be absent (or empty, which Python
  truthiness treats the same in `if priority:` / `if status:`) is an
  `Option String`, with `none` covering both absent and empty.
* A view that either mutates a ticket or reports an error message via
  `messages.error` and leaves the ticket untouched becomes a function
  into `Except String Ticket`.
* The acting request is modelled by `Actor`: the authenticated user's id,
  whether `is_handler(user)` holds (membership in the `Handler` group),
  and the two legacy session flags set by `custom_login`
  (`handler_logged_in` and `handler_user == 'handler'`).
-/

/-- A row of `tickets_ticket` (`models.py`, class `Ticket`).  Fields kept in
source order; `title`/`description` carried along, `sla_due` is present in
the schema but unused by the logic, as in the source. -/
structure Ticket where
  id : Nat
  title : String
  description : String
  created_by : Nat
  agent : Option Nat
  handler : Option Nat
  department : Option Nat
  status : String
  completed_at : Option Int
  created_at : Int
  sla_due : Option Int
  priority : String
deriving DecidableEq, Repr

/-- A row of `tickets_comment` (`models.py`, class `Comment`); `ticket` is the
foreign key to the owning ticket (`on_delete=CASCADE`). -/
structure Comment where
  id : Nat
  ticketId : Nat
  userId : Nat
  text : String
  created_at : Int
deriving DecidableEq, Repr

namespace Ticket

/-- `Ticket.is_completed` from `models.py`. -/
def is_completed (t : Ticket) : Bool :=
  t.status == "completed"

/-- `Ticket.completed_within_hours(hours=4)` from `models.py`: `False` when
`completed_at` is null, else whether `completed_at - created_at` is at most
`hours` hours. -/
def completed_within_hours (t : Ticket) (hours : Int) : Bool :=
  match t.completed_at with
  | none => false
  | some c => c - t.created_at ≤ hours * 3600

/-- `Ticket.sla_status` from `models.py`. -/
def sla_status (t : Ticket) : String :=
  if t.status ≠ "completed" then "open"
  else if t.completed_within_hours 4 then "on_time"
  else "delayed"

end Ticket

/-- Claim C2: `sla_status` returns `"open"` whenever the status is not
`"completed"`, regardless of the timestamps; on a completed ticket whose
`completed_at` is set it returns `"on_time"` exactly when
`completed_at - created_at` is at most 4 hours and `"delayed"` otherwise. -/
theorem C2_sla_status (t : Ticket) :
    (t.status ≠ "completed" → t.sla_status = "open") ∧
    (t.status = "completed" → ∀ c : Int, t.completed_at = some c →
      (t.sla_status = "on_time" ↔ c - t.created_at ≤ 4 * 3600) ∧
      (t.sla_status = "delayed" ↔ ¬ c - t.created_at ≤ 4 * 3600)) := by
  constructor
  · intro h
    simp [Ticket.sla_status, h]
  · intro hst c hc
    have hwithin : t.completed_within_hours 4 = decide (c - t.created_at ≤ 4 * 3600) := by
      simp [Ticket.completed_within_hours, hc]
    constructor
    · constructor
      · intro hsla
        by_contra hgt
        simp [Ticket.sla_status, hst, hwithin, hgt] at hsla
        omega
      · intro hle
        simp [Ticket.sla_status, hst, hwithin, hle]
        omega
    · constructor
      · intro hsla hle
        simp [Ticket.sla_status, hst, hwithin, hle] at hsla
        omega
      · intro hgt
        simp [Ticket.sla_status, hst, hwithin, hgt]
        omega

/-- A concrete ticket completed 3600 seconds after creation. -/
def c2Ticket : Ticket :=
  { id := 1, title := "t", description := "d", created_by := 1,
    agent := none, handler := none, department := none,
    status := "completed", completed_at := some 4600, created_at := 1000,
    sla_due := none, priority := "medium" }

/-- Witness for C2 at `c2Ticket`: completed one hour after creation, so the
SLA status is `"on_time"`. -/
theorem C2_sla_status_witness : c2Ticket.sla_status = "on_time" :=
  (((C2_sla_status c2Ticket).2 rfl 4600 rfl).1).mpr (by decide)

/-- The acting request, as seen by the dashboard views: the authenticated
user's id (`request.user`), `is_handler(request.user)` (membership in the
`Handler` group), and the two legacy session flags that `custom_login` can
set: `request.session['handler_logged_in']` and
`request.session.get('handler_user') == 'handler'`. -/
structure Actor where
  id : Nat
  inHandlerGroup : Bool
  sessionHandlerLoggedIn : Bool
  sessionHandlerUser : Bool
deriving DecidableEq, Repr

/-- The successful branch of the POST handling in `agent_dashboard`
(`views.py`): bind the agent to the acting user, apply the optional
priority and status verbatim, stamp `completed_at` when the posted status
is `completed` and clear it otherwise.  The `@user_passes_test(is_agent)`
decorator is the caller's obligation and not part of this function. -/
def agentApply (actorId : Nat) (t : Ticket) (priority status : Option String)
    (now : Int) : Ticket :=
  let t1 : Ticket := { t with agent := some actorId }
  let t2 : Ticket := match priority with
    | some p => { t1 with priority := p }
    | none => t1
  let t3 : Ticket := match status with
    | some s => { t2 with status := s }
    | none => t2
  if status = some "completed" then { t3 with completed_at := some now }
  else { t3 with completed_at := none }

/-- The guard of the agent flow: `agentApply` runs only when the ticket's
agent is null or already the acting agent, else the view reports the error
and the ticket is untouched. -/
def agentUpdate (actorId : Nat) (t : Ticket) (priority status : Option String)
    (now : Int) : Except String Ticket :=
  if t.agent = none ∨ t.agent = some actorId then
    Except.ok (agentApply actorId t priority status now)
  else
    Except.error "You are not allowed to update this ticket."

/-- The successful branch of the POST handling in `handler_dashboard`
(`views.py`): apply the optional priority and status verbatim, stamp
`completed_at` when the posted status is `completed` and clear it
otherwise, and finally bind the ticket's handler to the acting user when
it is still null and the user is in the `Handler` group.

In the view this branch runs only after two checks, modelled by
`handlerUpdate`: access is denied (redirect to login) unless the session
flag `handler_logged_in` is set or the user is in the `Handler` group, and
the update is allowed only when the ticket's handler is null, is the
acting user, or the legacy session key `handler_user` equals
`'handler'`. -/
def handlerApply (a : Actor) (t : Ticket) (priority status : Option String)
    (now : Int) : Ticket :=
  let t1 : Ticket := match priority with
    | some p => { t with priority := p }
    | none => t
  let t2 : Ticket := match status with
    | some s => { t1 with status := s }
    | none => t1
  let t3 : Ticket :=
    if status = some "completed" then { t2 with completed_at := some now }
    else { t2 with completed_at := none }
  if t3.handler = none ∧ a.inHandlerGroup = true then { t3 with handler := some a.id }
  else t3

/-- The access gate and authorization guard of `handler_dashboard`:
`handlerApply` runs only past both checks. -/
def handlerUpdate (a : Actor) (t : Ticket) (priority status : Option String)
    (now : Int) : Except String Ticket :=
  if ¬ (a.sessionHandlerLoggedIn = true ∨ a.inHandlerGroup = true) then
    Except.error "redirect: login"
  else if t.handler = none ∨ t.handler = some a.id ∨ a.sessionHandlerUser = true then
    Except.ok (handlerApply a t priority status now)
  else
    Except.error "You are not allowed to update this ticket."

/-- Claim C10: an agent or handler update that passes the actor-binding
check and supplies no status value (for example a priority-only update)
leaves the status at its current value but sets `completed_at` to null. -/
theorem C10_no_status_clears_completed_at (a : Actor) (t : Ticket)
    (p : Option String) (now : Int) :
    ((t.agent = none ∨ t.agent = some a.id) →
      ∃ t', agentUpdate a.id t p none now = Except.ok t' ∧
        t'.status = t.status ∧ t'.completed_at = none) ∧
    ((a.sessionHandlerLoggedIn = true ∨ a.inHandlerGroup = true) →
     (t.handler = none ∨ t.handler = some a.id ∨ a.sessionHandlerUser = true) →
      ∃ t', handlerUpdate a t p none now = Except.ok t' ∧
        t'.status = t.status ∧ t'.completed_at = none) := by
  constructor
  · intro hag
    refine ⟨agentApply a.id t p none now, ?_, ?_, ?_⟩
    · rw [agentUpdate, if_pos hag]
    · cases p <;> rfl
    · cases p <;> rfl
  · intro hgate hcond
    refine ⟨handlerApply a t p none now, ?_, ?_, ?_⟩
    · rw [handlerUpdate, if_neg (not_not_intro hgate), if_pos hcond]
    · cases p <;> simp [handlerApply] <;> split <;> rfl
    · cases p <;> simp [handlerApply] <;> split <;> rfl

/-- A completed ticket assigned to handler 4, used as the C10 witness
input. -/
def c10Ticket : Ticket :=
  { id := 3, title := "t3", description := "d3", created_by := 2,
    agent := none, handler := some 4, department := none,
    status := "completed", completed_at := some 8000, created_at := 100,
    sla_due := none, priority := "medium" }

/-- The handler of `c10Ticket`, a member of the `Handler` group. -/
def c10Actor : Actor :=
  { id := 4, inHandlerGroup := true, sessionHandlerLoggedIn := false,
    sessionHandlerUser := false }

/-- Witness for C10: handler 4 updates only the priority of its completed
ticket; the status stays `"completed"` while `completed_at` is cleared. -/
theorem C10_no_status_clears_completed_at_witness :
    ∃ t', handlerUpdate c10Actor c10Ticket (some "low") none 9000 = Except.ok t' ∧
      t'.status = c10Ticket.status ∧ t'.completed_at = none :=
  (C10_no_status_clears_completed_at c10Actor c10Ticket (some "low") 9000).2
    (Or.inr rfl) (Or.inr (Or.inl rfl))

/-- A pending ticket with no agent, used to exhibit the missing status
validation of the agent flow. -/
def c9Ticket : Ticket :=
  { id := 5, title := "t5", description := "d5", created_by := 2,
    agent := none, handler := none, department := none,
    status := "in_progress", completed_at := none, created_at := 100,
    sla_due := none, priority := "medium" }

/-- The result of posting the out-of-set status `"bogus"` to `c9Ticket`. -/
def c9Result : Ticket :=
  { c9Ticket with agent := some 5, status := "bogus", completed_at := none }

/-- Counterexample to claim C9: posting the status value `"bogus"` — which
is outside `{pending, in_progress, completed}` — to the agent flow is not
rejected with a validation error; the update succeeds and the raw value is
stored in the ticket's status field. -/
theorem C9_counterexample_no_validation :
    agentUpdate 5 c9Ticket none (some "bogus") 100 = Except.ok c9Result ∧
    c9Result.status = "bogus" ∧
    "bogus" ∉ ["pending", "in_progress", "completed"] :=
  ⟨rfl, rfl, by decide⟩

/-- Claim C9 as amended: the agent and handler flows perform no validation
of posted status or priority values; whenever the actor-binding check
passes, any supplied values — also ones outside the allowed sets — are
accepted and stored verbatim, and the update succeeds. -/
theorem C9_amended_no_validation (a : Actor) (t : Ticket) (p s : String)
    (now : Int) :
    ((t.agent = none ∨ t.agent = some a.id) →
      ∃ t', agentUpdate a.id t (some p) (some s) now = Except.ok t' ∧
        t'.priority = p ∧ t'.status = s) ∧
    ((a.sessionHandlerLoggedIn = true ∨ a.inHandlerGroup = true) →
     (t.handler = none ∨ t.handler = some a.id ∨ a.sessionHandlerUser = true) →
      ∃ t', handlerUpdate a t (some p) (some s) now = Except.ok t' ∧
        t'.priority = p ∧ t'.status = s) := by
  constructor
  · intro hag
    refine ⟨agentApply a.id t (some p) (some s) now, ?_, ?_, ?_⟩
    · rw [agentUpdate, if_pos hag]
    · simp [agentApply]; split <;> rfl
    · simp [agentApply]; split <;> rfl
  · intro hgate hcond
    refine ⟨handlerApply a t (some p) (some s) now, ?_, ?_, ?_⟩
    · rw [handlerUpdate, if_neg (not_not_intro hgate), if_pos hcond]
    · simp [handlerApply]; split <;> split <;> rfl
    · simp [handlerApply]; split <;> split <;> rfl

/-- The acting agent of the C9 witness. -/
def c9wActor : Actor :=
  { id := 6, inHandlerGroup := false, sessionHandlerLoggedIn := false,
    sessionHandlerUser := false }

/-- An unassigned pending ticket for the C9 witness. -/
def c9wTicket : Ticket :=
  { id := 6, title := "t6", description := "d6", created_by := 3,
    agent := none, handler := none, department := none,
    status := "pending", completed_at := none, created_at := 200,
    sla_due := none, priority := "medium" }

/-- Witness for the amended C9: out-of-set priority and status values are
stored verbatim by the agent flow. -/
theorem C9_amended_no_validation_witness :
    ∃ t', agentUpdate c9wActor.id c9wTicket (some "odd_prio") (some "odd_state") 300 =
        Except.ok t' ∧
      t'.priority = "odd_prio" ∧ t'.status = "odd_state" :=
  (C9_amended_no_validation c9wActor c9wTicket "odd_prio" "odd_state" 300).1
    (Or.inl rfl)

/-- A completed ticket assigned to agent 9, with `completed_at` stamped:
the invariant `completed_at != null ↔ status == completed` holds before the
update. -/
def c1Ticket : Ticket :=
  { id := 2, title := "t2", description := "d2", created_by := 1,
    agent := some 9, handler := none, department := none,
    status := "completed", completed_at := some 5000, created_at := 100,
    sla_due := none, priority := "low" }

/-- The state of `c1Ticket` after agent 9 posts a priority-only update. -/
def c1Result : Ticket :=
  { c1Ticket with agent := some 9, priority := "high", completed_at := none }

/-- Claim C1 fails on the code: a priority-only update by the bound agent
on the completed ticket `c1Ticket` succeeds, leaves the status at
`"completed"`, and clears `completed_at` — so the operation breaks the
equivalence `completed_at != null ↔ status == completed`. -/
theorem C1_invariant_broken_by_priority_only_update :
    agentUpdate 9 c1Ticket (some "high") none 6000 = Except.ok c1Result ∧
    c1Result.status = "completed" ∧ c1Result.completed_at = none ∧
    ¬ (c1Result.completed_at ≠ none ↔ c1Result.status = "completed") :=
  ⟨rfl, rfl, rfl, by decide⟩

/-- An unassigned pending ticket for the C3 counterexample. -/
def c3Ticket : Ticket :=
  { id := 4, title := "t4", description := "d4", created_by := 2,
    agent := none, handler := none, department := none,
    status := "pending", completed_at := none, created_at := 100,
    sla_due := none, priority := "medium" }

/-- A legacy-session handler actor that is not in the `Handler` group. -/
def c3Actor : Actor :=
  { id := 7, inHandlerGroup := false, sessionHandlerLoggedIn := true,
    sessionHandlerUser := true }

/-- The state of `c3Ticket` after `c3Actor` posts a priority-only update. -/
def c3Result : Ticket :=
  { c3Ticket with priority := "high", completed_at := none }

/-- Counterexample to claim C3: when the legacy-session actor `c3Actor`,
who is not a member of the `Handler` group, updates the unassigned ticket
`c3Ticket`, the update succeeds but the ticket's handler is not bound to
the actor — it stays null, contradicting the claimed unconditional binding
side effect. -/
theorem C3_counterexample_legacy_session_no_binding :
    handlerUpdate c3Actor c3Ticket (some "high") none 50 = Except.ok c3Result ∧
    c3Result.handler = none ∧ c3Result.handler ≠ some c3Actor.id :=
  ⟨rfl, rfl, by decide⟩

/-- Claim C3 as amended: for actors with handler-dashboard access, an
update by actor A succeeds exactly when the ticket's handler is null,
equals A, or A carries the legacy session identity; when A is moreover a
member of the `Handler` group and the handler is null, a successful update
binds the handler to A (a legacy-session actor outside the group leaves it
null); and an update attempt by a different actor B without the legacy
session identity on a ticket bound to A is rejected with the authorization
error, leaving the ticket unchanged. -/
theorem C3_amended_claim_on_write (a b : Actor) (t : Ticket)
    (p s : Option String) (now : Int)
    (hgA : a.sessionHandlerLoggedIn = true ∨ a.inHandlerGroup = true)
    (hgB : b.sessionHandlerLoggedIn = true ∨ b.inHandlerGroup = true) :
    ((∃ t', handlerUpdate a t p s now = Except.ok t') ↔
      (t.handler = none ∨ t.handler = some a.id ∨ a.sessionHandlerUser = true)) ∧
    (t.handler = none → a.inHandlerGroup = true →
      ∀ t', handlerUpdate a t p s now = Except.ok t' → t'.handler = some a.id) ∧
    (t.handler = some a.id → b.id ≠ a.id → b.sessionHandlerUser = false →
      handlerUpdate b t p s now =
        Except.error "You are not allowed to update this ticket.") := by
  refine ⟨?_, ?_, ?_⟩
  · rw [handlerUpdate, if_neg (not_not_intro hgA)]
    constructor
    · rintro ⟨t', ht'⟩
      by_contra h
      rw [if_neg h] at ht'
      exact Except.noConfusion ht'
    · intro h
      rw [if_pos h]
      exact ⟨_, rfl⟩
  · intro hn hin t' ht'
    rw [handlerUpdate, if_neg (not_not_intro hgA), if_pos (Or.inl hn)] at ht'
    injection ht' with ht'
    subst ht'
    cases p <;> cases s <;> simp [handlerApply, hn, hin] <;> split <;> simp_all
  · intro hb hne hsess
    rw [handlerUpdate, if_neg (not_not_intro hgB), if_neg]
    rintro (h1 | h2 | h3)
    · rw [hb] at h1; cases h1
    · rw [hb] at h2; exact hne (Option.some.inj h2).symm
    · rw [hsess] at h3; cases h3

/-- Handler 11, a `Handler`-group member, bound to the C3 witness ticket. -/
def c3wActorA : Actor :=
  { id := 11, inHandlerGroup := true, sessionHandlerLoggedIn := false,
    sessionHandlerUser := false }

/-- A different `Handler`-group member, actor of the rejected update. -/
def c3wActorB : Actor :=
  { id := 12, inHandlerGroup := true, sessionHandlerLoggedIn := false,
    sessionHandlerUser := false }

/-- A ticket already bound to handler 11. -/
def c3wTicket : Ticket :=
  { id := 7, title := "t7", description := "d7", created_by := 3,
    agent := none, handler := some 11, department := none,
    status := "pending", completed_at := none, created_at := 400,
    sla_due := none, priority := "medium" }

/-- Witness for the amended C3: handler 12's update of a ticket bound to
handler 11 is rejected with the authorization error. -/
theorem C3_amended_claim_on_write_witness :
    handlerUpdate c3wActorB c3wTicket none none 5 =
      Except.error "You are not allowed to update this ticket." :=
  (C3_amended_claim_on_write c3wActorA c3wActorB c3wTicket none none 5
    (Or.inr rfl) (Or.inr rfl)).2.2 rfl (by decide) rfl

/-- A snapshot of the persisted ticket and comment tables, for the
operations that touch more than one row. -/
structure Store where
  tickets : List Ticket
  comments : List Comment
deriving DecidableEq, Repr

/-- The `delete_ticket` view (`views.py`): `get_object_or_404` raises 404
when the id does not resolve; a non-completed ticket is refused with the
message and left untouched; otherwise `ticket.delete()` removes the row
and, through `on_delete=CASCADE` on `Comment.ticket`, every comment of the
ticket.  The `@user_passes_test(is_admin)` decorator is the caller's
obligation. -/
def delete_ticket (s : Store) (ticketId : Nat) : Except String Store :=
  match s.tickets.find? (fun t => t.id == ticketId) with
  | none => Except.error "404: ticket not found"
  | some t =>
    if t.status ≠ "completed" then
      Except.error "Only completed tickets can be deleted."
    else
      Except.ok
        { tickets := s.tickets.filter (fun u => !(u.id == ticketId)),
          comments := s.comments.filter (fun c => !(c.ticketId == ticketId)) }

/-- Claim C4: deleting a non-completed ticket fails with the policy error
and changes nothing; deleting a completed ticket succeeds, removes the
ticket, and cascade-deletes exactly its comments. -/
theorem C4_delete_ticket (s : Store) (ticketId : Nat) (t : Ticket)
    (hfind : s.tickets.find? (fun u => u.id == ticketId) = some t) :
    (t.status ≠ "completed" →
      delete_ticket s ticketId =
        Except.error "Only completed tickets can be deleted.") ∧
    (t.status = "completed" →
      ∃ s', delete_ticket s ticketId = Except.ok s' ∧
        (∀ u : Ticket, u ∈ s'.tickets ↔ u ∈ s.tickets ∧ u.id ≠ ticketId) ∧
        (∀ c : Comment, c ∈ s'.comments ↔ c ∈ s.comments ∧ c.ticketId ≠ ticketId)) := by
  constructor
  · intro hne
    rw [delete_ticket, hfind]
    dsimp only
    rw [if_pos hne]
  · intro heq
    rw [delete_ticket, hfind]
    dsimp only
    rw [if_neg (by simp [heq])]
    refine ⟨_, rfl, ?_, ?_⟩
    · intro u
      simp [List.mem_filter]
    · intro c
      simp [List.mem_filter]

/-- A completed ticket with id 1, target of the C4 witness deletion. -/
def c4Done : Ticket :=
  { id := 1, title := "t1", description := "d1", created_by := 2,
    agent := none, handler := none, department := none,
    status := "completed", completed_at := some 900, created_at := 100,
    sla_due := none, priority := "medium" }

/-- A pending ticket with id 2, untouched by the C4 witness deletion. -/
def c4Pending : Ticket :=
  { id := 2, title := "t2", description := "d2", created_by := 2,
    agent := none, handler := none, department := none,
    status := "pending", completed_at := none, created_at := 200,
    sla_due := none, priority := "medium" }

/-- A store with the two C4 tickets and one comment on each. -/
def c4Store : Store :=
  { tickets := [c4Done, c4Pending],
    comments := [{ id := 1, ticketId := 1, userId := 2, text := "a", created_at := 150 },
                 { id := 2, ticketId := 2, userId := 2, text := "b", created_at := 250 }] }

/-- Witness for C4: deleting completed ticket 1 from `c4Store` succeeds and
removes exactly the ticket and its comment. -/
theorem C4_delete_ticket_witness :
    ∃ s', delete_ticket c4Store 1 = Except.ok s' ∧
      (∀ u : Ticket, u ∈ s'.tickets ↔ u ∈ c4Store.tickets ∧ u.id ≠ 1) ∧
      (∀ c : Comment, c ∈ s'.comments ↔ c ∈ c4Store.comments ∧ c.ticketId ≠ 1) :=
  (C4_delete_ticket c4Store 1 c4Done rfl).2 rfl

/-- The `mark_all_completed` view (`views.py`):
`Ticket.objects.filter(status__in=['pending', 'in_progress'])
.update(status='completed', completed_at=timezone.now())`.  The queryset
`update` returns the number of matched rows; the view ignores it, but it
is the operation's result at the core level.  Admin-only by decorator. -/
def mark_all_completed (tickets : List Ticket) (now : Int) : List Ticket × Nat :=
  ((tickets.map fun t =>
      if t.status = "pending" ∨ t.status = "in_progress" then
        { t with status := "completed", completed_at := some now }
      else t),
   (tickets.filter fun t =>
      decide (t.status = "pending" ∨ t.status = "in_progress")).length)

/-- Claim C5: `mark_all_completed` turns every pending or in-progress
ticket into a completed one stamped with the current time, leaves every
other ticket (in particular every already-completed one) entirely
unchanged, and returns the number of tickets it updated. -/
theorem C5_mark_all_completed (tickets : List Ticket) (now : Int) :
    List.Forall₂ (fun t t' =>
        (t.status = "pending" ∨ t.status = "in_progress" →
          t' = { t with status := "completed", completed_at := some now }) ∧
        (¬ (t.status = "pending" ∨ t.status = "in_progress") → t' = t))
      tickets (mark_all_completed tickets now).1 ∧
    (mark_all_completed tickets now).2 =
      tickets.countP (fun t =>
        decide (t.status = "pending" ∨ t.status = "in_progress")) := by
  constructor
  · rw [mark_all_completed]
    dsimp only
    rw [List.forall₂_map_right_iff, List.forall₂_same]
    intro t _
    constructor
    · intro h
      rw [if_pos h]
    · intro h
      rw [if_neg h]
  · rw [mark_all_completed, List.countP_eq_length_filter]

/-- The three C5 witness tickets: pending, in-progress, and completed. -/
def c5Tickets : List Ticket :=
  [{ id := 1, title := "a", description := "a", created_by := 1,
     agent := none, handler := none, department := none,
     status := "pending", completed_at := none, created_at := 10,
     sla_due := none, priority := "medium" },
   { id := 2, title := "b", description := "b", created_by := 1,
     agent := none, handler := none, department := none,
     status := "in_progress", completed_at := none, created_at := 20,
     sla_due := none, priority := "medium" },
   { id := 3, title := "c", description := "c", created_by := 1,
     agent := none, handler := none, department := none,
     status := "completed", completed_at := some 40, created_at := 30,
     sla_due := none, priority := "medium" }]

/-- Witness for C5 on `c5Tickets`. -/
theorem C5_mark_all_completed_witness :
    List.Forall₂ (fun t t' =>
        (t.status = "pending" ∨ t.status = "in_progress" →
          t' = { t with status := "completed", completed_at := some 100 }) ∧
        (¬ (t.status = "pending" ∨ t.status = "in_progress") → t' = t))
      c5Tickets (mark_all_completed c5Tickets 100).1 ∧
    (mark_all_completed c5Tickets 100).2 =
      c5Tickets.countP (fun t =>
        decide (t.status = "pending" ∨ t.status = "in_progress")) :=
  C5_mark_all_completed c5Tickets 100

/-- The `delete_selected` view (`views.py`):
`Ticket.objects.filter(id__in=ids, status='completed')` is counted and then
deleted; tickets outside the selection or not completed survive, and no
error is reported for unmatched ids.  Admin-only by decorator. -/
def delete_selected (tickets : List Ticket) (ids : List Nat) : List Ticket × Nat :=
  ((tickets.filter fun t => !(decide (t.id ∈ ids ∧ t.status = "completed"))),
   (tickets.filter fun t => decide (t.id ∈ ids ∧ t.status = "completed")).length)

/-- Claim C6: `delete_selected` deletes exactly the tickets among the given
ids whose status is completed and returns their count; every other ticket —
unmatched id or non-completed status — survives unchanged, with no error. -/
theorem C6_delete_selected (tickets : List Ticket) (ids : List Nat) :
    (∀ t : Ticket, t ∈ (delete_selected tickets ids).1 ↔
      t ∈ tickets ∧ ¬ (t.id ∈ ids ∧ t.status = "completed")) ∧
    (delete_selected tickets ids).2 =
      tickets.countP (fun t => decide (t.id ∈ ids ∧ t.status = "completed")) := by
  constructor
  · intro t
    simp [delete_selected, List.mem_filter]
    tauto
  · rw [delete_selected, List.countP_eq_length_filter]

/-- Witness for C6, the spec's scenario: of tickets 1 (completed),
2 (pending), 3 (completed), selecting all three deletes the two completed
ones — count 2 — and ticket 2 survives. -/
theorem C6_delete_selected_witness :
    (∀ t : Ticket, t ∈ (delete_selected c5Tickets [1, 2, 3]).1 ↔
      t ∈ c5Tickets ∧ ¬ (t.id ∈ [1, 2, 3] ∧ t.status = "completed")) ∧
    (delete_selected c5Tickets [1, 2, 3]).2 =
      c5Tickets.countP (fun t =>
        decide (t.id ∈ [1, 2, 3] ∧ t.status = "completed")) :=
  C6_delete_selected c5Tickets [1, 2, 3]

/-- The row filter of the `user_tickets` view (`views.py`):
`created_by=request.user` and
`Q(status__in=['pending', 'in_progress']) |
 Q(status='completed', completed_at__gt=two_minutes_ago)` with
`two_minutes_ago = timezone.now() - timedelta(minutes=2)`.  A null
`completed_at` never satisfies the `__gt` lookup, as in SQL. -/
def ownTicketFilter (owner : Nat) (now : Int) (t : Ticket) : Bool :=
  t.created_by == owner &&
    (t.status == "pending" || t.status == "in_progress" ||
      (t.status == "completed" &&
        match t.completed_at with
        | some c => decide (now - 120 < c)
        | none => false))

/-- The `order_by('-created_at')` ordering: newest first. -/
def createdDescOrder (a b : Ticket) : Prop :=
  b.created_at ≤ a.created_at

instance : DecidableRel createdDescOrder := fun a b =>
  inferInstanceAs (Decidable (b.created_at ≤ a.created_at))

instance : IsTotal Ticket createdDescOrder :=
  ⟨fun a b => le_total b.created_at a.created_at⟩

instance : IsTrans Ticket createdDescOrder :=
  ⟨fun _ _ _ h1 h2 => le_trans h2 h1⟩

/-- The `user_tickets` view (`views.py`): the filtered rows of the current
user, ordered by `created_at` descending. -/
def user_tickets (tickets : List Ticket) (owner : Nat) (now : Int) : List Ticket :=
  List.insertionSort createdDescOrder (tickets.filter (ownTicketFilter owner now))

/-- Claim C7: `user_tickets` returns exactly the owner's tickets that are
pending or in progress, plus those completed strictly within the last 2
minutes, ordered by `created_at` descending; completed tickets older than
that (and tickets of other owners) are excluded. -/
theorem C7_user_tickets (tickets : List Ticket) (owner : Nat) (now : Int) :
    (∀ t : Ticket, t ∈ user_tickets tickets owner now ↔
      t ∈ tickets ∧ t.created_by = owner ∧
        (t.status = "pending" ∨ t.status = "in_progress" ∨
          (t.status = "completed" ∧
            ∃ c : Int, t.completed_at = some c ∧ now - 120 < c))) ∧
    (user_tickets tickets owner now).Pairwise createdDescOrder := by
  constructor
  · intro t
    rw [user_tickets, (List.perm_insertionSort createdDescOrder _).mem_iff,
      List.mem_filter]
    cases hc : t.completed_at with
    | none => simp [ownTicketFilter, hc, and_assoc]
    | some c =>
      simp [ownTicketFilter, hc, and_assoc]
      tauto
  · exact List.sorted_insertionSort createdDescOrder _

/-- A ticket of owner 1 completed 60 seconds before `now = 1000`. -/
def c7Fresh : Ticket :=
  { id := 1, title := "f", description := "f", created_by := 1,
    agent := none, handler := none, department := none,
    status := "completed", completed_at := some 940, created_at := 10,
    sla_due := none, priority := "medium" }

/-- A ticket of owner 1 completed 180 seconds before `now = 1000`. -/
def c7Stale : Ticket :=
  { id := 2, title := "s", description := "s", created_by := 1,
    agent := none, handler := none, department := none,
    status := "completed", completed_at := some 820, created_at := 20,
    sla_due := none, priority := "medium" }

/-- Witness for C7 at `now = 1000`: the membership characterisation and the
ordering hold on the two concrete completed tickets of owner 1. -/
theorem C7_user_tickets_witness :
    (∀ t : Ticket, t ∈ user_tickets [c7Fresh, c7Stale] 1 1000 ↔
      t ∈ [c7Fresh, c7Stale] ∧ t.created_by = 1 ∧
        (t.status = "pending" ∨ t.status = "in_progress" ∨
          (t.status = "completed" ∧
            ∃ c : Int, t.completed_at = some c ∧ 1000 - 120 < c))) ∧
    (user_tickets [c7Fresh, c7Stale] 1 1000).Pairwise createdDescOrder :=
  C7_user_tickets [c7Fresh, c7Stale] 1 1000

/-- The environment read by `submit_ticket` (`views.py`):
`handlerGroupMembers` is, when `Group.objects.filter(name='Handler')
.first()` finds a group, that group's `user_set` in its iteration order
(`none` when no such group exists); `departments` are the existing
department ids. -/
structure SubmitContext where
  handlerGroupMembers : Option (List Nat)
  departments : List Nat
deriving DecidableEq, Repr

/-- The POST branch of `submit_ticket` (`views.py`): resolve the optional
department id (silently null when it does not exist), auto-assign the first
user of the `Handler` group when the group exists, and create the ticket;
`status`, `priority`, `completed_at` and `agent` take the model-field
defaults. -/
def submit_ticket (actorId newId : Nat) (title description : String)
    (departmentReq : Option Nat) (ctx : SubmitContext) (now : Int) : Ticket :=
  let department : Option Nat := match departmentReq with
    | none => none
    | some d => if d ∈ ctx.departments then some d else none
  let handler_user : Option Nat := match ctx.handlerGroupMembers with
    | none => none
    | some members => members.head?
  { id := newId, title := title, description := description,
    created_by := actorId, agent := none, handler := handler_user,
    department := department, status := "pending", completed_at := none,
    created_at := now, sla_due := none, priority := "medium" }

/-- Claim C8: a submitted ticket gets the first member of the `Handler`
group as handler when the group exists and is non-empty, and a null handler
when the group is absent or empty; it starts pending, with priority medium,
no completion timestamp, and the submitting actor as creator. -/
theorem C8_submit_ticket (actorId newId : Nat) (title description : String)
    (departmentReq : Option Nat) (ctx : SubmitContext) (now : Int) :
    (∀ (u : Nat) (rest : List Nat), ctx.handlerGroupMembers = some (u :: rest) →
      (submit_ticket actorId newId title description departmentReq ctx now).handler
        = some u) ∧
    (ctx.handlerGroupMembers = none ∨ ctx.handlerGroupMembers = some [] →
      (submit_ticket actorId newId title description departmentReq ctx now).handler
        = none) ∧
    (submit_ticket actorId newId title description departmentReq ctx now).status
      = "pending" ∧
    (submit_ticket actorId newId title description departmentReq ctx now).priority
      = "medium" ∧
    (submit_ticket actorId newId title description departmentReq ctx now).completed_at
      = none ∧
    (submit_ticket actorId newId title description departmentReq ctx now).created_by
      = actorId := by
  refine ⟨?_, ?_, rfl, rfl, rfl, rfl⟩
  · intro u rest h
    simp [submit_ticket, h]
  · rintro (h | h) <;> simp [submit_ticket, h]

/-- A submission context whose `Handler` group holds users 8 and 9. -/
def c8Ctx : SubmitContext :=
  { handlerGroupMembers := some [8, 9], departments := [1] }

/-- Witness for C8: with `c8Ctx` the new ticket is assigned handler 8 and
starts pending with priority medium and no completion timestamp. -/
theorem C8_submit_ticket_witness :
    (submit_ticket 2 10 "printer" "it is broken" none c8Ctx 500).handler = some 8 ∧
    (submit_ticket 2 10 "printer" "it is broken" none c8Ctx 500).status = "pending" ∧
    (submit_ticket 2 10 "printer" "it is broken" none c8Ctx 500).priority = "medium" ∧
    (submit_ticket 2 10 "printer" "it is broken" none c8Ctx 500).completed_at = none :=
  ⟨(C8_submit_ticket 2 10 "printer" "it is broken" none c8Ctx 500).1 8 [9] rfl,
   (C8_submit_ticket 2 10 "printer" "it is broken" none c8Ctx 500).2.2.1,
   (C8_submit_ticket 2 10 "printer" "it is broken" none c8Ctx 500).2.2.2.1,
   (C8_submit_ticket 2 10 "printer" "it is broken" none c8Ctx 500).2.2.2.2.1⟩
